import Mathlib

/-!
Verification of the session orchestration and liveness core of the
aws-go-forward repository.

The Go program (src/main.go, and the variant source file src/unnamed/part_000
whose shared functions are textually identical) is shallowly embedded here:
pure computations become Lean functions, and every effectful collaborator
(AWS clients, JSON marshalling, process spawning, the capture buffer of the
in-process plugin call) is passed in as an explicit environment.  The
observable behaviour of the program becomes a list of events in the program
order of the main goroutine, and the keep-alive goroutine becomes a function
from its input events (timer ticks and the stop channel firing) to the list
of actions it performs.
-/

namespace AwsGoForward

/-- Embeds the Go struct Config (src/unnamed/part_000 lines 30-38): the six
required settings plus the strategy selector UseBuiltin.  Ports are Go ints,
so they are embedded as unbounded integers. -/
structure Config where
  profile : String
  region : String
  instanceName : String
  localPort : Int
  remoteHost : String
  remotePort : Int
  useBuiltin : Bool
  deriving DecidableEq, Repr

/-- Embeds the validation condition of main (src/unnamed/part_000 lines
209-212, src/main.go lines 171-174): the Go code proceeds only when no field
is the empty string and no port is zero. -/
def validConfig (cfg : Config) : Bool :=
  !(cfg.profile == "" || cfg.region == "" || cfg.instanceName == "" ||
    cfg.localPort == 0 || cfg.remoteHost == "" || cfg.remotePort == 0)

/-- Embeds aws ec2 types.Filter: name and values of a DescribeInstances
filter. -/
structure Filter where
  name : String
  values : List String
  deriving DecidableEq, Repr

/-- Embeds ec2.DescribeInstancesInput restricted to the field the program
sets. -/
structure DescribeInstancesInput where
  filters : List Filter
  deriving DecidableEq, Repr

/-- Embeds ec2 types.Instance restricted to the fields the program reads:
the instance identifier and the lifecycle state name. -/
structure Instance where
  instanceId : String
  stateName : String
  deriving DecidableEq, Repr

/-- Embeds ec2 types.Reservation restricted to its instance list. -/
structure Reservation where
  instances : List Instance
  deriving DecidableEq, Repr

/-- Embeds ec2.DescribeInstancesOutput restricted to the reservation list. -/
structure DescribeInstancesOutput where
  reservations : List Reservation
  deriving DecidableEq, Repr

/-- Embeds the constant ec2 types.InstanceStateNameRunning. -/
def instanceStateNameRunning : String := "running"

/-- Embeds the DescribeInstancesInput built by getInstanceID
(src/unnamed/part_000 lines 62-69): one filter on the Name tag whose sole
value is the requested instance name. -/
def nameTagQuery (instanceName : String) : DescribeInstancesInput :=
  { filters := [{ name := "tag:Name", values := [instanceName] }] }

/-- Embeds the inner loop of getInstanceID over the instances of one
reservation (src/unnamed/part_000 lines 76-80): return the identifier of the
first instance whose state is running. -/
def scanInstances : List Instance → Option String
  | [] => none
  | i :: is =>
    if i.stateName == instanceStateNameRunning then some i.instanceId
    else scanInstances is

/-- Embeds the outer loop of getInstanceID over reservations
(src/unnamed/part_000 lines 75-81). -/
def scanReservations : List Reservation → Option String
  | [] => none
  | r :: rs =>
    match scanInstances r.instances with
    | some id => some id
    | none => scanReservations rs

/-- Embeds the error message of getInstanceID (src/unnamed/part_000 line 82,
identical in src/main.go line 79). -/
def noRunningMsg : String := "No running aws instances found."

/-- Embeds getInstanceID (src/unnamed/part_000 lines 61-83, src/main.go lines
58-80).  The ec2 client is the environment function `client`; the first
component records the DescribeInstances calls the function issues (the Go
code issues exactly one), and the second component is its Go return value:
the instance id, or the propagated query error, or the not-found error. -/
def getInstanceID (client : DescribeInstancesInput → Except String DescribeInstancesOutput)
    (instanceName : String) : List DescribeInstancesInput × Except String String :=
  ([nameTagQuery instanceName],
   match client (nameTagQuery instanceName) with
   | Except.error e => Except.error e
   | Except.ok output =>
     match scanReservations output.reservations with
     | some id => Except.ok id
     | none => Except.error noRunningMsg)

/-- Description of the locator result written from the words of the spec
(section 4.1): the first instance in enumeration order over all matching
groups, reservations flattened in order, whose lifecycle state is
running. -/
def specFirstRunning (output : DescribeInstancesOutput) : Option Instance :=
  ((output.reservations.map Reservation.instances).flatten).find?
    (fun i => i.stateName == instanceStateNameRunning)

/-- Embeds the ssm.StartSessionOutput as an abstract record; its JSON
serialization is supplied by the environment. -/
structure SessionResponse where
  raw : String
  deriving DecidableEq, Repr

/-- Embeds ssm.StartSessionInput restricted to the fields the program sets.
The Go parameters map is embedded as an association list in the order the
source literal writes it. -/
structure StartSessionInput where
  target : String
  documentName : String
  parameters : List (String × List String)
  deriving DecidableEq, Repr

/-- Embeds the StartSessionInput built by startPortForwarding
(src/unnamed/part_000 lines 86-94, src/main.go lines 83-91). -/
def mkStartSessionInput (instanceID remoteHost : String)
    (localPort remotePort : Int) : StartSessionInput :=
  { target := instanceID
    documentName := "AWS-StartPortForwardingSessionToRemoteHost"
    parameters := [("localPortNumber", [toString localPort]),
                   ("host", [remoteHost]),
                   ("portNumber", [toString remotePort])] }

/-- Embeds startPortForwarding (src/unnamed/part_000 lines 85-96, src/main.go
lines 82-93): build the request and hand it to the ssm client (the
environment function `client`).  The first component is the request that was
sent, the second the client result. -/
def startPortForwarding (client : StartSessionInput → Except String SessionResponse)
    (instanceID remoteHost : String) (localPort remotePort : Int) :
    StartSessionInput × Except String SessionResponse :=
  (mkStartSessionInput instanceID remoteHost localPort remotePort,
   client (mkStartSessionInput instanceID remoteHost localPort remotePort))

/-- Embeds the target JSON literal both launch strategies format with
fmt.Sprintf (src/unnamed/part_000 lines 109 and 139). -/
def mkTargetJson (instanceID : String) : String :=
  "\x7b\"Target\":\"" ++ instanceID ++ "\"\x7d"

/-- Embeds the ssm endpoint URL main formats (src/unnamed/part_000 line 233,
src/main.go line 195). -/
def mkSsmEndpoint (region : String) : String :=
  "https://ssm." ++ region ++ ".amazonaws.com"

/-- Embeds the argument vector of startSessionManagerPluginBuiltin
(src/unnamed/part_000 lines 103-111, src/main.go lines 100-108).  The first
element is the ignored placeholder executable name. -/
def builtinArgs (pluginData region profile instanceID ssmEndpoint : String) :
    List String :=
  ["aws-go-forward", pluginData, region, "StartSession", profile,
   mkTargetJson instanceID, ssmEndpoint]

/-- Embeds the argument vector of startSessionManagerPluginExternal
(src/unnamed/part_000 lines 133-141): exec.Command is given the real
invocation name of the agent followed by the same six arguments. -/
def externalArgs (pluginData region profile instanceID ssmEndpoint : String) :
    List String :=
  ["session-manager-plugin", pluginData, region, "StartSession", profile,
   mkTargetJson instanceID, ssmEndpoint]

section Lemmas

/-- The instance scan of one reservation returns the first running instance
of that reservation. -/
theorem scanInstances_eq_find (is : List Instance) :
    scanInstances is =
      (is.find? (fun i => i.stateName == instanceStateNameRunning)).map
        Instance.instanceId := by
  induction is with
  | nil => rfl
  | cons i is ih =>
    by_cases h : i.stateName == instanceStateNameRunning
    · simp [scanInstances, List.find?, h]
    · simp only [Bool.not_eq_true] at h
      simp [scanInstances, List.find?, h, ih]

/-- The nested reservation/instance scan agrees with a single first-match
search over the reservations flattened in enumeration order. -/
theorem scanReservations_eq_specFirstRunning (rs : List Reservation) :
    scanReservations rs =
      (((rs.map Reservation.instances).flatten).find?
          (fun i => i.stateName == instanceStateNameRunning)).map
        Instance.instanceId := by
  induction rs with
  | nil => rfl
  | cons r rs ih =>
    simp only [scanReservations, List.map_cons, List.flatten, List.find?_append]
    cases h : scanInstances r.instances with
    | none =>
      rw [scanInstances_eq_find] at h
      cases hf : List.find? (fun i => i.stateName == instanceStateNameRunning)
          r.instances with
      | none => simpa [hf, Option.orElse] using ih
      | some v => simp [hf] at h
    | some id =>
      rw [scanInstances_eq_find] at h
      cases hf : List.find? (fun i => i.stateName == instanceStateNameRunning)
          r.instances with
      | none => simp [hf] at h
      | some v =>
        simp only [hf, Option.map_some] at h
        simp [hf, Option.orElse, h]

end Lemmas

/-- Claim C2: getInstanceID issues exactly one DescribeInstances query, filtered on
the Name tag with the requested name as sole value (so it never retries); on
query failure it propagates the control-plane error unchanged; on success it
returns the identifier of the first returned instance, in enumeration order
over reservation groups and then over the instances within each group, whose
lifecycle state is running, and fails with the not-found error when no
returned instance is running. -/
theorem getInstanceID_first_running
    (client : DescribeInstancesInput → Except String DescribeInstancesOutput)
    (instanceName : String) :
    (getInstanceID client instanceName).1 = [nameTagQuery instanceName] ∧
    nameTagQuery instanceName =
      { filters := [{ name := "tag:Name", values := [instanceName] }] } ∧
    (getInstanceID client instanceName).2 =
      (match client (nameTagQuery instanceName) with
       | Except.error e => Except.error e
       | Except.ok output =>
         match specFirstRunning output with
         | some i => Except.ok i.instanceId
         | none => Except.error noRunningMsg) := by
  refine ⟨rfl, rfl, ?_⟩
  show (match client (nameTagQuery instanceName) with
        | Except.error e => Except.error e
        | Except.ok output =>
          match scanReservations output.reservations with
          | some id => Except.ok id
          | none => Except.error noRunningMsg) = _
  cases client (nameTagQuery instanceName) with
  | error e => rfl
  | ok output =>
    simp only [specFirstRunning, scanReservations_eq_specFirstRunning]
    cases ((output.reservations.map Reservation.instances).flatten).find?
        (fun i => i.stateName == instanceStateNameRunning) with
    | none => rfl
    | some v => rfl

/-- Claim C3: startPortForwarding sends a session request whose parameters map has
exactly the keys localPortNumber, host and portNumber, bound to the decimal
string of the local port, the remote host, and the decimal string of the
remote port; whose target is the given instance identifier; and whose
document name is the fixed remote-host port-forwarding document.  The request
is handed to the client exactly as built. -/
theorem startPortForwarding_request
    (client : StartSessionInput → Except String SessionResponse)
    (instanceID remoteHost : String) (localPort remotePort : Int) :
    (startPortForwarding client instanceID remoteHost localPort remotePort).1.parameters =
      [("localPortNumber", [toString localPort]),
       ("host", [remoteHost]),
       ("portNumber", [toString remotePort])] ∧
    ((startPortForwarding client instanceID remoteHost localPort remotePort).1.parameters.map
        Prod.fst) = ["localPortNumber", "host", "portNumber"] ∧
    (startPortForwarding client instanceID remoteHost localPort remotePort).1.target =
      instanceID ∧
    (startPortForwarding client instanceID remoteHost localPort remotePort).1.documentName =
      "AWS-StartPortForwardingSessionToRemoteHost" ∧
    (startPortForwarding client instanceID remoteHost localPort remotePort).2 =
      client (mkStartSessionInput instanceID remoteHost localPort remotePort) :=
  ⟨rfl, rfl, rfl, rfl, rfl⟩

/-- Claim C4: both tunnel-launch strategies build the same positional argument
vector for the tunneling agent: descriptor JSON, region, the literal
StartSession command, profile, the Target JSON object, and the ssm endpoint
URL; they differ only in the first element, the placeholder name for the
in-process strategy and the real invocation name for the external strategy.
The 4th element is always the literal StartSession, the 6th always the Target
JSON for the instance id, and the endpoint main passes is the regional ssm
URL. -/
theorem agent_argument_vector (pluginData region profile instanceID ssmEndpoint : String) :
    builtinArgs pluginData region profile instanceID ssmEndpoint =
      ["aws-go-forward", pluginData, region, "StartSession", profile,
       mkTargetJson instanceID, ssmEndpoint] ∧
    externalArgs pluginData region profile instanceID ssmEndpoint =
      ["session-manager-plugin", pluginData, region, "StartSession", profile,
       mkTargetJson instanceID, ssmEndpoint] ∧
    (builtinArgs pluginData region profile instanceID ssmEndpoint).tail =
      (externalArgs pluginData region profile instanceID ssmEndpoint).tail ∧
    (builtinArgs pluginData region profile instanceID ssmEndpoint)[3]? =
      some ("StartSession") ∧
    (externalArgs pluginData region profile instanceID ssmEndpoint)[3]? =
      some ("StartSession") ∧
    (builtinArgs pluginData region profile instanceID ssmEndpoint)[5]? =
      some (mkTargetJson instanceID) ∧
    (externalArgs pluginData region profile instanceID ssmEndpoint)[5]? =
      some (mkTargetJson instanceID) ∧
    mkTargetJson instanceID = "\x7b\"Target\":\"" ++ instanceID ++ "\"\x7d" ∧
    mkSsmEndpoint region = "https://ssm." ++ region ++ ".amazonaws.com" :=
  ⟨rfl, rfl, rfl, rfl, rfl, rfl, rfl, rfl, rfl⟩

/-- Input of one iteration of the KeepAlive select loop: either the 30-second
ticker fires (with the outcomes the environment gives to net.Dial and
conn.Write on that tick), or the stop channel fires. -/
inductive KAEvent where
  | tick (dialResult : Except String Unit) (writeResult : Except String Unit)
  | stop

/-- Observable action performed by the KeepAlive loop. -/
inductive KAAction where
  | dialAttempt (addr : String)
  | wrote (bytes : String)
  | closedConn
  | logged (msg : String)
  | stopped
  deriving DecidableEq, Repr

/-- Embeds the dial address KeepAlive formats (src/main.go line 130,
src/unnamed/part_000 line 167). -/
def kaAddr (localPort : Int) : String := "127.0.0.1:" ++ toString localPort

/-- Embeds the ticker interval of KeepAlive (src/main.go line 123): 30
seconds. -/
def keepAliveIntervalSeconds : Nat := 30

/-- Embeds the message printed when the stop channel fires (src/main.go line
144). -/
def kaStopMsg : String := "Stopping keep-alive routine"

/-- Embeds one ticker-fired iteration of KeepAlive (src/unnamed/part_000
lines 165-178): dial 127.0.0.1 at the local port; on dial failure log and
continue without closing; on dial success write the single newline byte, log
the write outcome, and close the connection. -/
def keepAliveTick (localPort : Int)
    (dialResult writeResult : Except String Unit) : List KAAction :=
  match dialResult with
  | Except.error e =>
    [KAAction.dialAttempt (kaAddr localPort),
     KAAction.logged ("Keep-alive failed to connect: " ++ e)]
  | Except.ok _ =>
    KAAction.dialAttempt (kaAddr localPort) ::
    (match writeResult with
     | Except.error e =>
       [KAAction.wrote ("\n"),
        KAAction.logged ("Error sending keep-alive packet: " ++ e),
        KAAction.closedConn]
     | Except.ok _ =>
       [KAAction.wrote ("\n"),
        KAAction.logged ("Keep-alive packet sent successfully"),
        KAAction.closedConn])

/-- Embeds KeepAlive (src/unnamed/part_000 lines 159-185, src/main.go lines
122-148): the select loop consumes ticker and stop-channel events in the
order the environment delivers them; a stop event logs, stops, and ends the
loop; the list of events is the finite schedule observed during the run. -/
def KeepAlive (localPort : Int) : List KAEvent → List KAAction
  | [] => []
  | KAEvent.tick d w :: rest => keepAliveTick localPort d w ++ KeepAlive localPort rest
  | KAEvent.stop :: _ => [KAAction.logged kaStopMsg, KAAction.stopped]

/-- Count of connection attempts in a KeepAlive action list. -/
def dialCount : List KAAction → Nat
  | [] => 0
  | KAAction.dialAttempt _ :: t => dialCount t + 1
  | _ :: t => dialCount t

/-- Count of write calls in a KeepAlive action list. -/
def writeCount : List KAAction → Nat
  | [] => 0
  | KAAction.wrote _ :: t => writeCount t + 1
  | _ :: t => writeCount t

/-- Count of connection closes in a KeepAlive action list. -/
def closeCount : List KAAction → Nat
  | [] => 0
  | KAAction.closedConn :: t => closeCount t + 1
  | _ :: t => closeCount t

/-- Holds when every connection attempt in the list targets the given
address. -/
def dialsTarget (addr : String) : List KAAction → Bool
  | [] => true
  | KAAction.dialAttempt s :: t => (s == addr) && dialsTarget addr t
  | _ :: t => dialsTarget addr t

/-- Holds when every write in the list writes exactly the single newline
byte. -/
def writesNewlineOnly : List KAAction → Bool
  | [] => true
  | KAAction.wrote s :: t => (s == "\n") && writesNewlineOnly t
  | _ :: t => writesNewlineOnly t

/-- Holds when the action list records that the loop returned. -/
def containsStopped : List KAAction → Bool
  | [] => false
  | KAAction.stopped :: _ => true
  | _ :: t => containsStopped t

/-- Recognizes the stop-channel event. -/
def isStopEvent : KAEvent → Bool
  | KAEvent.stop => true
  | _ => false

/-- Recognizes every event except the stop-channel event. -/
def notStop (e : KAEvent) : Bool := !isStopEvent e

/-- Count of ticker events in a schedule. -/
def tickCount : List KAEvent → Nat
  | [] => 0
  | KAEvent.tick _ _ :: t => tickCount t + 1
  | _ :: t => tickCount t

/-- Count of ticker events whose dial succeeds. -/
def okDialTickCount : List KAEvent → Nat
  | [] => 0
  | KAEvent.tick (Except.ok _) _ :: t => okDialTickCount t + 1
  | _ :: t => okDialTickCount t

section KeepAliveLemmas

/-- The loop consumes exactly the prefix of the schedule before the first
stop event, then performs the stop actions if a stop event is present. -/
theorem keepAlive_split (localPort : Int) (evs : List KAEvent) :
    KeepAlive localPort evs =
      KeepAlive localPort (evs.takeWhile notStop) ++
        (if evs.any isStopEvent then [KAAction.logged kaStopMsg, KAAction.stopped]
         else []) := by
  induction evs with
  | nil => rfl
  | cons e rest ih =>
    cases e with
    | tick d w =>
      simp only [KeepAlive, List.takeWhile, List.any_cons]
      simp [notStop, isStopEvent, ih, List.append_assoc]
    | stop => simp [KeepAlive, List.takeWhile, notStop, isStopEvent]

theorem dialCount_append (a b : List KAAction) :
    dialCount (a ++ b) = dialCount a + dialCount b := by
  induction a with
  | nil => simp [dialCount]
  | cons x t ih => cases x <;> simp [dialCount, ih] <;> omega

theorem writeCount_append (a b : List KAAction) :
    writeCount (a ++ b) = writeCount a + writeCount b := by
  induction a with
  | nil => simp [writeCount]
  | cons x t ih => cases x <;> simp [writeCount, ih] <;> omega

theorem closeCount_append (a b : List KAAction) :
    closeCount (a ++ b) = closeCount a + closeCount b := by
  induction a with
  | nil => simp [closeCount]
  | cons x t ih => cases x <;> simp [closeCount, ih] <;> omega

theorem dialsTarget_append (addr : String) (a b : List KAAction) :
    dialsTarget addr (a ++ b) = (dialsTarget addr a && dialsTarget addr b) := by
  induction a with
  | nil => simp [dialsTarget]
  | cons x t ih => cases x <;> simp [dialsTarget, ih, Bool.and_assoc]

theorem writesNewlineOnly_append (a b : List KAAction) :
    writesNewlineOnly (a ++ b) = (writesNewlineOnly a && writesNewlineOnly b) := by
  induction a with
  | nil => simp [writesNewlineOnly]
  | cons x t ih => cases x <;> simp [writesNewlineOnly, ih, Bool.and_assoc]

theorem containsStopped_append (a b : List KAAction) :
    containsStopped (a ++ b) = (containsStopped a || containsStopped b) := by
  induction a with
  | nil => simp [containsStopped]
  | cons x t ih => cases x <;> simp [containsStopped, ih]

end KeepAliveLemmas

/-- Claim C5: over any finite schedule of ticker and stop events, the KeepAlive
loop makes exactly one connection attempt per tick that precedes the first
stop event (so a dial or write failure on one tick never suppresses the
attempt on the next); every attempt targets 127.0.0.1 at the local port;
every write is the single newline byte, with exactly one write and one close
per tick whose dial succeeded; the loop performs its stop actions exactly
when the stop event occurs in the schedule, consuming nothing after it; and
the tick interval constant is 30 seconds. -/
theorem keepAlive_liveness (localPort : Int) (evs : List KAEvent) :
    dialCount (KeepAlive localPort evs) = tickCount (evs.takeWhile notStop) ∧
    dialsTarget (kaAddr localPort) (KeepAlive localPort evs) = true ∧
    writeCount (KeepAlive localPort evs) = okDialTickCount (evs.takeWhile notStop) ∧
    closeCount (KeepAlive localPort evs) = okDialTickCount (evs.takeWhile notStop) ∧
    writesNewlineOnly (KeepAlive localPort evs) = true ∧
    containsStopped (KeepAlive localPort evs) = evs.any isStopEvent ∧
    KeepAlive localPort evs =
      KeepAlive localPort (evs.takeWhile notStop) ++
        (if evs.any isStopEvent then [KAAction.logged kaStopMsg, KAAction.stopped]
         else []) ∧
    keepAliveIntervalSeconds = 30 := by
  refine ⟨?_, ?_, ?_, ?_, ?_, ?_, keepAlive_split localPort evs, rfl⟩
  · induction evs with
    | nil => rfl
    | cons e rest ih =>
      cases e with
      | tick d w =>
        cases d with
        | error e' =>
          simp [KeepAlive, keepAliveTick, List.takeWhile, notStop, isStopEvent,
            dialCount_append, dialCount, tickCount, ih]
        | ok u =>
          cases w <;>
            simp [KeepAlive, keepAliveTick, List.takeWhile, notStop, isStopEvent,
              dialCount_append, dialCount, tickCount, ih]
      | stop => simp [KeepAlive, List.takeWhile, notStop, isStopEvent, dialCount, tickCount]
  · induction evs with
    | nil => rfl
    | cons e rest ih =>
      cases e with
      | tick d w =>
        cases d with
        | error e' => simp [KeepAlive, keepAliveTick, dialsTarget_append, dialsTarget, ih]
        | ok u =>
          cases w <;>
            simp [KeepAlive, keepAliveTick, dialsTarget_append, dialsTarget, ih]
      | stop => simp [KeepAlive, dialsTarget]
  · induction evs with
    | nil => rfl
    | cons e rest ih =>
      cases e with
      | tick d w =>
        cases d with
        | error e' =>
          simp [KeepAlive, keepAliveTick, List.takeWhile, notStop, isStopEvent,
            writeCount_append, writeCount, okDialTickCount, ih]
        | ok u =>
          cases w <;>
            simp [KeepAlive, keepAliveTick, List.takeWhile, notStop, isStopEvent,
              writeCount_append, writeCount, okDialTickCount, ih]
      | stop =>
        simp [KeepAlive, List.takeWhile, notStop, isStopEvent, writeCount, okDialTickCount]
  · induction evs with
    | nil => rfl
    | cons e rest ih =>
      cases e with
      | tick d w =>
        cases d with
        | error e' =>
          simp [KeepAlive, keepAliveTick, List.takeWhile, notStop, isStopEvent,
            closeCount_append, closeCount, okDialTickCount, ih]
        | ok u =>
          cases w <;>
            simp [KeepAlive, keepAliveTick, List.takeWhile, notStop, isStopEvent,
              closeCount_append, closeCount, okDialTickCount, ih]
      | stop =>
        simp [KeepAlive, List.takeWhile, notStop, isStopEvent, closeCount, okDialTickCount]
  · induction evs with
    | nil => rfl
    | cons e rest ih =>
      cases e with
      | tick d w =>
        cases d with
        | error e' =>
          simp [KeepAlive, keepAliveTick, writesNewlineOnly_append, writesNewlineOnly, ih]
        | ok u =>
          cases w <;>
            simp [KeepAlive, keepAliveTick, writesNewlineOnly_append, writesNewlineOnly, ih]
      | stop => simp [KeepAlive, writesNewlineOnly]
  · induction evs with
    | nil => rfl
    | cons e rest ih =>
      cases e with
      | tick d w =>
        cases d with
        | error e' =>
          simp [KeepAlive, keepAliveTick, containsStopped_append, containsStopped,
            isStopEvent, ih]
        | ok u =>
          cases w <;>
            simp [KeepAlive, keepAliveTick, containsStopped_append, containsStopped,
              isStopEvent, ih]
      | stop => simp [KeepAlive, containsStopped, isStopEvent]

/-- Identifies the log.Fatal call sites of the program. -/
inductive FatalTag where
  | missingParams
  | awsSession
  | instanceId
  | portForwarding
  | marshalResponse
  | builtinLaunch
  | externalLaunch
  deriving DecidableEq, Repr

/-- Observable event of the main goroutine, in program order. -/
inductive Event where
  | createAWSSession
  | ec2Query (input : DescribeInstancesInput)
  | ssmStartSession (input : StartSessionInput)
  | launchBuiltin (args : List String)
  | spawnExternal (args : List String)
  | spawnKeepAlive (localPort : Int)
  | setProcessHandle (pid : Nat)
  | waitSignal
  | closeStopChan
  | killProcess (pid : Nat)
  | print (msg : String)
  | logFatal (tag : FatalTag) (msg : String)
  | exitEv (code : Nat)
  deriving DecidableEq, Repr

/-- Result of a helper function that can abort the whole process via
log.Fatalf instead of returning. -/
inductive FnOutcome (α : Type) where
  | returned (a : α)
  | aborted
  deriving DecidableEq, Repr

/-- Environment of one run: the outcome of every effectful collaborator the
core consults, keyed by the request it is given. -/
structure Env where
  awsSession : Except String Unit
  ec2Resp : DescribeInstancesInput → Except String DescribeInstancesOutput
  ssmResp : StartSessionInput → Except String SessionResponse
  marshal : SessionResponse → Except String String
  spawn : List String → Except String Nat
  agentOutput : List String → String

/-- Embeds startSessionManagerPluginBuiltin (src/unnamed/part_000 lines
98-125, src/main.go lines 95-120).  On a marshalling failure the Go function
calls log.Fatalf, which exits the process: the outcome is aborted and the
trace ends with the fatal log and exit.  Otherwise it performs the blocking
in-process call with the fixed argument vector, echoes the captured agent
output when non-empty, and returns the nil error. -/
def startSessionManagerPluginBuiltin (marshalResult : Except String String)
    (agentOutput : List String → String)
    (region profile instanceID ssmEndpoint : String) :
    List Event × FnOutcome (Option String) :=
  match marshalResult with
  | Except.error e =>
    ([Event.logFatal FatalTag.marshalResponse ("Failed to marshal response: " ++ e),
      Event.exitEv 1],
     FnOutcome.aborted)
  | Except.ok pluginData =>
    (Event.launchBuiltin (builtinArgs pluginData region profile instanceID ssmEndpoint) ::
      (if 0 < (agentOutput (builtinArgs pluginData region profile instanceID ssmEndpoint)).length
       then [Event.print ("Session Manager Output: " ++
         agentOutput (builtinArgs pluginData region profile instanceID ssmEndpoint))]
       else []),
     FnOutcome.returned none)

/-- Embeds startSessionManagerPluginExternal (src/unnamed/part_000 lines
127-150).  On a marshalling failure the Go function calls log.Fatalf, which
exits the process.  Otherwise it spawns the agent with the fixed argument
vector; a spawn failure is returned as an error, a success as the process
handle. -/
def startSessionManagerPluginExternal (marshalResult : Except String String)
    (spawn : List String → Except String Nat)
    (region profile instanceID ssmEndpoint : String) :
    List Event × FnOutcome (Except String Nat) :=
  match marshalResult with
  | Except.error e =>
    ([Event.logFatal FatalTag.marshalResponse ("Failed to marshal response: " ++ e),
      Event.exitEv 1],
     FnOutcome.aborted)
  | Except.ok pluginData =>
    match spawn (externalArgs pluginData region profile instanceID ssmEndpoint) with
    | Except.error e =>
      ([Event.spawnExternal (externalArgs pluginData region profile instanceID ssmEndpoint)],
       FnOutcome.returned (Except.error e))
    | Except.ok pid =>
      ([Event.spawnExternal (externalArgs pluginData region profile instanceID ssmEndpoint)],
       FnOutcome.returned (Except.ok pid))

/-- Embeds cleanup (src/unnamed/part_000 lines 152-157): kill the stored
tunnel process handle when one was set, and report the termination. -/
def cleanup : Option Nat → List Event
  | none => []
  | some pid => [Event.killProcess pid,
                 Event.print ("Session Manager Plugin process terminated.")]

/-- Embeds the fatal message of the validation check (src/unnamed/part_000
line 211). -/
def fatalMsgMissing : String :=
  "All parameters are required. Use --help for more information."

/-- Embeds main after flag and file resolution (src/unnamed/part_000 lines
209-261; src/main.go main is the same flow restricted to the in-process
strategy): validate the settings, create the AWS session, locate the
instance, negotiate the session, start the keep-alive goroutine, launch the
tunnel with the selected strategy, wait for the termination signal, close the
stop channel, and run cleanup.  Every log.Fatal path ends the trace with exit
code 1; the orderly path ends with exit code 0. -/
def mainRun (cfg : Config) (env : Env) : List Event :=
  if validConfig cfg = false then
    [Event.logFatal FatalTag.missingParams fatalMsgMissing, Event.exitEv 1]
  else
    Event.createAWSSession ::
    match env.awsSession with
    | Except.error e =>
      [Event.logFatal FatalTag.awsSession ("Failed to create AWS session: " ++ e),
       Event.exitEv 1]
    | Except.ok _ =>
      (getInstanceID env.ec2Resp cfg.instanceName).1.map Event.ec2Query ++
      match (getInstanceID env.ec2Resp cfg.instanceName).2 with
      | Except.error e =>
        [Event.logFatal FatalTag.instanceId ("Failed to get instance ID: " ++ e),
         Event.exitEv 1]
      | Except.ok instanceID =>
        Event.ssmStartSession
          (startPortForwarding env.ssmResp instanceID cfg.remoteHost
            cfg.localPort cfg.remotePort).1 ::
        match (startPortForwarding env.ssmResp instanceID cfg.remoteHost
            cfg.localPort cfg.remotePort).2 with
        | Except.error e =>
          [Event.logFatal FatalTag.portForwarding
            ("Failed to start port forwarding: " ++ e),
           Event.exitEv 1]
        | Except.ok resp =>
          Event.print ("Port forwarding session started") ::
          Event.spawnKeepAlive cfg.localPort ::
          (if cfg.useBuiltin then
            (startSessionManagerPluginBuiltin (env.marshal resp) env.agentOutput
              cfg.region cfg.profile instanceID (mkSsmEndpoint cfg.region)).1 ++
            match (startSessionManagerPluginBuiltin (env.marshal resp) env.agentOutput
                cfg.region cfg.profile instanceID (mkSsmEndpoint cfg.region)).2 with
            | FnOutcome.aborted => []
            | FnOutcome.returned (some e) =>
              [Event.logFatal FatalTag.builtinLaunch
                ("Failed to start Session Manager Plugin builtin: " ++ e),
               Event.exitEv 1]
            | FnOutcome.returned none =>
              Event.waitSignal :: Event.closeStopChan ::
                (cleanup none ++ [Event.exitEv 0])
          else
            (startSessionManagerPluginExternal (env.marshal resp) env.spawn
              cfg.region cfg.profile instanceID (mkSsmEndpoint cfg.region)).1 ++
            match (startSessionManagerPluginExternal (env.marshal resp) env.spawn
                cfg.region cfg.profile instanceID (mkSsmEndpoint cfg.region)).2 with
            | FnOutcome.aborted => []
            | FnOutcome.returned (Except.error e) =>
              [Event.logFatal FatalTag.externalLaunch
                ("Failed to start Session Manager Plugin: " ++ e),
               Event.exitEv 1]
            | FnOutcome.returned (Except.ok pid) =>
              Event.setProcessHandle pid ::
              Event.print ("Session Manager Plugin process started with PID: " ++
                toString pid) ::
              Event.waitSignal :: Event.closeStopChan ::
                (cleanup (some pid) ++ [Event.exitEv 0]))

/-- Recognizes the events that contact an external service or hand work to
the tunneling agent. -/
def isServiceCall : Event → Bool
  | Event.createAWSSession => true
  | Event.ec2Query _ => true
  | Event.ssmStartSession _ => true
  | Event.launchBuiltin _ => true
  | Event.spawnExternal _ => true
  | _ => false

/-- Holds when no event of the trace contacts an external service. -/
def noServiceCall : List Event → Bool
  | [] => true
  | e :: t => !isServiceCall e && noServiceCall t

/-- Holds when no kill of the tunnel process occurs before the stop channel
is closed: scanning the trace in order, a kill before the first close fails
the check. -/
def closePrecedesKill : List Event → Bool
  | [] => true
  | Event.killProcess _ :: _ => false
  | Event.closeStopChan :: _ => true
  | _ :: t => closePrecedesKill t

/-- Count of kill requests in a trace. -/
def killCount : List Event → Nat
  | [] => 0
  | Event.killProcess _ :: t => killCount t + 1
  | _ :: t => killCount t

/-- Count of kill requests addressed to a given process handle. -/
def killCountOf (pid : Nat) : List Event → Nat
  | [] => 0
  | Event.killProcess q :: t => (if q = pid then 1 else 0) + killCountOf pid t
  | _ :: t => killCountOf pid t

/-- Holds when the trace ends with a process exit and nothing follows any
exit event. -/
def exitLastOnly : List Event → Bool
  | [] => false
  | [Event.exitEv _] => true
  | Event.exitEv _ :: _ :: _ => false
  | _ :: t => exitLastOnly t

/-- Strings the program itself writes to its log or standard output. -/
def printedStrings : List Event → List String
  | [] => []
  | Event.print s :: t => s :: printedStrings t
  | Event.logFatal _ s :: t => s :: printedStrings t
  | _ :: t => printedStrings t

/-- Holds when the trace performs the blocking in-process launch and a
strictly later event waits for the termination signal: the signal wait is
sequential after the launch call returns. -/
def seqLaunchThenWait : List Event → Bool
  | [] => false
  | Event.launchBuiltin _ :: t =>
    t.any fun e => match e with
      | Event.waitSignal => true
      | _ => false
  | _ :: t => seqLaunchThenWait t

section MainRunLemmas

theorem getInstanceID_fst
    (client : DescribeInstancesInput → Except String DescribeInstancesOutput)
    (instanceName : String) :
    (getInstanceID client instanceName).1 = [nameTagQuery instanceName] := rfl

theorem startPortForwarding_fst
    (client : StartSessionInput → Except String SessionResponse)
    (instanceID remoteHost : String) (localPort remotePort : Int) :
    (startPortForwarding client instanceID remoteHost localPort remotePort).1 =
      mkStartSessionInput instanceID remoteHost localPort remotePort := rfl

theorem startPortForwarding_snd
    (client : StartSessionInput → Except String SessionResponse)
    (instanceID remoteHost : String) (localPort remotePort : Int) :
    (startPortForwarding client instanceID remoteHost localPort remotePort).2 =
      client (mkStartSessionInput instanceID remoteHost localPort remotePort) := rfl

/-- Exhaustive list of the trace shapes mainRun can produce, one per control
path of the source. -/
theorem mainRun_shape (cfg : Config) (env : Env) :
    (mainRun cfg env =
      [Event.logFatal FatalTag.missingParams fatalMsgMissing, Event.exitEv 1]) ∨
    (∃ e, mainRun cfg env =
      [Event.createAWSSession,
       Event.logFatal FatalTag.awsSession ("Failed to create AWS session: " ++ e),
       Event.exitEv 1]) ∨
    (∃ e, mainRun cfg env =
      [Event.createAWSSession,
       Event.ec2Query (nameTagQuery cfg.instanceName),
       Event.logFatal FatalTag.instanceId ("Failed to get instance ID: " ++ e),
       Event.exitEv 1]) ∨
    (∃ id e, mainRun cfg env =
      [Event.createAWSSession,
       Event.ec2Query (nameTagQuery cfg.instanceName),
       Event.ssmStartSession
         (mkStartSessionInput id cfg.remoteHost cfg.localPort cfg.remotePort),
       Event.logFatal FatalTag.portForwarding ("Failed to start port forwarding: " ++ e),
       Event.exitEv 1]) ∨
    (∃ id e, mainRun cfg env =
      [Event.createAWSSession,
       Event.ec2Query (nameTagQuery cfg.instanceName),
       Event.ssmStartSession
         (mkStartSessionInput id cfg.remoteHost cfg.localPort cfg.remotePort),
       Event.print ("Port forwarding session started"),
       Event.spawnKeepAlive cfg.localPort,
       Event.logFatal FatalTag.marshalResponse ("Failed to marshal response: " ++ e),
       Event.exitEv 1]) ∨
    (∃ id d, mainRun cfg env =
      [Event.createAWSSession,
       Event.ec2Query (nameTagQuery cfg.instanceName),
       Event.ssmStartSession
         (mkStartSessionInput id cfg.remoteHost cfg.localPort cfg.remotePort),
       Event.print ("Port forwarding session started"),
       Event.spawnKeepAlive cfg.localPort,
       Event.launchBuiltin (builtinArgs d cfg.region cfg.profile id (mkSsmEndpoint cfg.region)),
       Event.waitSignal, Event.closeStopChan, Event.exitEv 0]) ∨
    (∃ id d out, mainRun cfg env =
      [Event.createAWSSession,
       Event.ec2Query (nameTagQuery cfg.instanceName),
       Event.ssmStartSession
         (mkStartSessionInput id cfg.remoteHost cfg.localPort cfg.remotePort),
       Event.print ("Port forwarding session started"),
       Event.spawnKeepAlive cfg.localPort,
       Event.launchBuiltin (builtinArgs d cfg.region cfg.profile id (mkSsmEndpoint cfg.region)),
       Event.print ("Session Manager Output: " ++ out),
       Event.waitSignal, Event.closeStopChan, Event.exitEv 0]) ∨
    (∃ id d e, mainRun cfg env =
      [Event.createAWSSession,
       Event.ec2Query (nameTagQuery cfg.instanceName),
       Event.ssmStartSession
         (mkStartSessionInput id cfg.remoteHost cfg.localPort cfg.remotePort),
       Event.print ("Port forwarding session started"),
       Event.spawnKeepAlive cfg.localPort,
       Event.spawnExternal (externalArgs d cfg.region cfg.profile id (mkSsmEndpoint cfg.region)),
       Event.logFatal FatalTag.externalLaunch
         ("Failed to start Session Manager Plugin: " ++ e),
       Event.exitEv 1]) ∨
    (∃ id d pid, mainRun cfg env =
      [Event.createAWSSession,
       Event.ec2Query (nameTagQuery cfg.instanceName),
       Event.ssmStartSession
         (mkStartSessionInput id cfg.remoteHost cfg.localPort cfg.remotePort),
       Event.print ("Port forwarding session started"),
       Event.spawnKeepAlive cfg.localPort,
       Event.spawnExternal (externalArgs d cfg.region cfg.profile id (mkSsmEndpoint cfg.region)),
       Event.setProcessHandle pid,
       Event.print ("Session Manager Plugin process started with PID: " ++ toString pid),
       Event.waitSignal, Event.closeStopChan,
       Event.killProcess pid,
       Event.print ("Session Manager Plugin process terminated."),
       Event.exitEv 0]) := by
  by_cases hv : validConfig cfg = false
  · exact Or.inl (by simp [mainRun, hv])
  · cases ha : env.awsSession with
    | error e =>
      exact Or.inr (Or.inl ⟨e, by simp [mainRun, hv, ha]⟩)
    | ok u =>
      cases hg : (getInstanceID env.ec2Resp cfg.instanceName).2 with
      | error e =>
        exact Or.inr (Or.inr (Or.inl ⟨e,
          by simp [mainRun, hv, ha, hg, getInstanceID_fst]⟩))
      | ok id =>
        cases hs : env.ssmResp
            (mkStartSessionInput id cfg.remoteHost cfg.localPort cfg.remotePort) with
        | error e =>
          exact Or.inr (Or.inr (Or.inr (Or.inl ⟨id, e,
            by simp [mainRun, hv, ha, hg, getInstanceID_fst,
              startPortForwarding_fst, startPortForwarding_snd, hs]⟩)))
        | ok resp =>
          by_cases hb : cfg.useBuiltin
          · cases hm : env.marshal resp with
            | error e =>
              refine Or.inr (Or.inr (Or.inr (Or.inr (Or.inl ⟨id, e, ?_⟩))))
              simp [mainRun, hv, ha, hg, getInstanceID_fst,
                startPortForwarding_fst, startPortForwarding_snd, hs, hb,
                startSessionManagerPluginBuiltin, hm]
            | ok d =>
              by_cases hout : 0 < (env.agentOutput
                  (builtinArgs d cfg.region cfg.profile id (mkSsmEndpoint cfg.region))).length
              · refine Or.inr (Or.inr (Or.inr (Or.inr (Or.inr (Or.inr (Or.inl
                  ⟨id, d, env.agentOutput
                    (builtinArgs d cfg.region cfg.profile id (mkSsmEndpoint cfg.region)),
                   ?_⟩))))))
                simp [mainRun, hv, ha, hg, getInstanceID_fst,
                  startPortForwarding_fst, startPortForwarding_snd, hs, hb,
                  startSessionManagerPluginBuiltin, hm, hout, cleanup]
              · refine Or.inr (Or.inr (Or.inr (Or.inr (Or.inr (Or.inl ⟨id, d, ?_⟩)))))
                simp [mainRun, hv, ha, hg, getInstanceID_fst,
                  startPortForwarding_fst, startPortForwarding_snd, hs, hb,
                  startSessionManagerPluginBuiltin, hm, hout, cleanup]
          · cases hm : env.marshal resp with
            | error e =>
              refine Or.inr (Or.inr (Or.inr (Or.inr (Or.inl ⟨id, e, ?_⟩))))
              simp [mainRun, hv, ha, hg, getInstanceID_fst,
                startPortForwarding_fst, startPortForwarding_snd, hs, hb,
                startSessionManagerPluginExternal, hm]
            | ok d =>
              cases hsp : env.spawn
                  (externalArgs d cfg.region cfg.profile id (mkSsmEndpoint cfg.region)) with
              | error e =>
                refine Or.inr (Or.inr (Or.inr (Or.inr (Or.inr (Or.inr (Or.inr (Or.inl
                  ⟨id, d, e, ?_⟩)))))))
                simp [mainRun, hv, ha, hg, getInstanceID_fst,
                  startPortForwarding_fst, startPortForwarding_snd, hs, hb,
                  startSessionManagerPluginExternal, hm, hsp, cleanup]
              | ok pid =>
                refine Or.inr (Or.inr (Or.inr (Or.inr (Or.inr (Or.inr (Or.inr (Or.inr
                  ⟨id, d, pid, ?_⟩)))))))
                simp [mainRun, hv, ha, hg, getInstanceID_fst,
                  startPortForwarding_fst, startPortForwarding_snd, hs, hb,
                  startSessionManagerPluginExternal, hm, hsp, cleanup]

end MainRunLemmas

section HeadLemmas

/-- Opening-brace character of a serialized JSON object. -/
def braceChar : Char := Char.ofNat 123

theorem head_append (s t : String) (c : Char) (h : s.data.head? = some c) :
    (s ++ t).data.head? = some c := by
  cases s with
  | mk ld =>
    cases t with
    | mk le =>
      show (String.mk (ld ++ le)).data.head? = some c
      cases ld with
      | nil => simp at h
      | cons a as => simpa using h

end HeadLemmas

section Fixtures

/-- Settings fixture selecting the in-process strategy, with all six required
fields populated. -/
def cfgBuiltin : Config :=
  { profile := "default", region := "us-east-1", instanceName := "db-bastion",
    localPort := 3306, remoteHost := "db.internal", remotePort := 3306,
    useBuiltin := true }

/-- Settings fixture selecting the external-process strategy. -/
def cfgExternal : Config :=
  { profile := "default", region := "us-east-1", instanceName := "db-bastion",
    localPort := 3306, remoteHost := "db.internal", remotePort := 3306,
    useBuiltin := false }

/-- Settings fixture with an empty profile field. -/
def cfgMissingProfile : Config :=
  { profile := "", region := "us-east-1", instanceName := "db-bastion",
    localPort := 3306, remoteHost := "db.internal", remotePort := 3306,
    useBuiltin := false }

/-- Settings fixture whose ports are non-zero yet outside 1-65535. -/
def cfgPortOutOfRange : Config :=
  { profile := "default", region := "us-east-1", instanceName := "db-bastion",
    localPort := 70000, remoteHost := "db.internal", remotePort := 3306,
    useBuiltin := false }

/-- Environment fixture in which every collaborator succeeds: one reservation
with one running instance, a session response whose serialization is a JSON
object, a spawn that yields pid 4242, and an empty agent capture buffer. -/
def envAllOk : Env :=
  { awsSession := Except.ok ()
    ec2Resp := fun _ => Except.ok
      { reservations := [{ instances := [{ instanceId := "i-0abc", stateName := "running" }] }] }
    ssmResp := fun _ => Except.ok { raw := "session" }
    marshal := fun _ => Except.ok ("\x7b\"SessionId\":\"s-1\"\x7d")
    spawn := fun _ => Except.ok 4242
    agentOutput := fun _ => "" }

end Fixtures

/-- Claim C1: whenever any of the six required settings is empty or zero, main
logs the fatal missing-parameters message and exits; the trace contains no
AWS session creation, no instance query, no session request, and no handoff
to the tunneling agent. -/
theorem invalid_settings_no_service_calls (cfg : Config) (env : Env)
    (h : cfg.profile = "" ∨ cfg.region = "" ∨ cfg.instanceName = "" ∨
         cfg.localPort = 0 ∨ cfg.remoteHost = "" ∨ cfg.remotePort = 0) :
    mainRun cfg env =
      [Event.logFatal FatalTag.missingParams fatalMsgMissing, Event.exitEv 1] ∧
    noServiceCall (mainRun cfg env) = true := by
  have hv : validConfig cfg = false := by
    simp only [validConfig, Bool.not_eq_false', Bool.or_eq_true, beq_iff_eq]
    tauto
  refine ⟨by simp [mainRun, hv], ?_⟩
  simp [mainRun, hv, noServiceCall, isServiceCall]

/-- Claim C1 witness: with the profile field empty, the run is exactly the fatal
log followed by the exit, and no service is contacted. -/
theorem invalid_settings_no_service_calls_witness :
    mainRun cfgMissingProfile envAllOk =
      [Event.logFatal FatalTag.missingParams fatalMsgMissing, Event.exitEv 1] ∧
    noServiceCall (mainRun cfgMissingProfile envAllOk) = true :=
  invalid_settings_no_service_calls cfgMissingProfile envAllOk (Or.inl rfl)

/-- Claim C6: on every exit path of the modelled main, no kill of the tunnel
process precedes the closing of the stop channel, the trace ends with the
process exit and nothing follows it, at most one kill request ever occurs,
a set tunnel process handle receives exactly one kill request with the stop
channel closed on that same path, the termination-signal wait is always
followed by the firing of the shutdown signal, and the keep-alive loop
consumes nothing of its schedule beyond the first stop event. -/
theorem shutdown_ordering (cfg : Config) (env : Env) :
    closePrecedesKill (mainRun cfg env) = true ∧
    exitLastOnly (mainRun cfg env) = true ∧
    killCount (mainRun cfg env) ≤ 1 ∧
    (∀ pid, Event.setProcessHandle pid ∈ mainRun cfg env →
      killCountOf pid (mainRun cfg env) = 1 ∧
      Event.closeStopChan ∈ mainRun cfg env) ∧
    (Event.waitSignal ∈ mainRun cfg env → Event.closeStopChan ∈ mainRun cfg env) ∧
    (∀ (localPort : Int) (evs : List KAEvent),
      KeepAlive localPort evs =
        KeepAlive localPort (evs.takeWhile notStop) ++
          (if evs.any isStopEvent then [KAAction.logged kaStopMsg, KAAction.stopped]
           else [])) := by
  have hsh := mainRun_shape cfg env
  refine ⟨?_, ?_, ?_, ?_, ?_, fun p evs => keepAlive_split p evs⟩
  · rcases hsh with h | ⟨e, h⟩ | ⟨e, h⟩ | ⟨id, e, h⟩ | ⟨id, e, h⟩ |
      ⟨id, d, h⟩ | ⟨id, d, out, h⟩ | ⟨id, d, e, h⟩ | ⟨id, d, pid, h⟩ <;>
      simp [h, closePrecedesKill]
  · rcases hsh with h | ⟨e, h⟩ | ⟨e, h⟩ | ⟨id, e, h⟩ | ⟨id, e, h⟩ |
      ⟨id, d, h⟩ | ⟨id, d, out, h⟩ | ⟨id, d, e, h⟩ | ⟨id, d, pid, h⟩ <;>
      simp [h, exitLastOnly]
  · rcases hsh with h | ⟨e, h⟩ | ⟨e, h⟩ | ⟨id, e, h⟩ | ⟨id, e, h⟩ |
      ⟨id, d, h⟩ | ⟨id, d, out, h⟩ | ⟨id, d, e, h⟩ | ⟨id, d, pid, h⟩ <;>
      simp [h, killCount]
  · intro pid hmem
    rcases hsh with h | ⟨e, h⟩ | ⟨e, h⟩ | ⟨id, e, h⟩ | ⟨id, e, h⟩ |
      ⟨id, d, h⟩ | ⟨id, d, out, h⟩ | ⟨id, d, e, h⟩ | ⟨id, d, pid0, h⟩ <;>
      rw [h] at hmem ⊢ <;> simp at hmem
    subst hmem
    exact ⟨by simp [killCountOf], by simp⟩
  · intro hw
    rcases hsh with h | ⟨e, h⟩ | ⟨e, h⟩ | ⟨id, e, h⟩ | ⟨id, e, h⟩ |
      ⟨id, d, h⟩ | ⟨id, d, out, h⟩ | ⟨id, d, e, h⟩ | ⟨id, d, pid, h⟩ <;>
      rw [h] at hw ⊢ <;> simp at hw ⊢

/-- Claim C6 witness: in the external-strategy run with pid 4242, the handle is
killed exactly once and the stop channel is closed. -/
theorem shutdown_ordering_witness :
    killCountOf 4242 (mainRun cfgExternal envAllOk) = 1 ∧
    Event.closeStopChan ∈ mainRun cfgExternal envAllOk :=
  (shutdown_ordering cfgExternal envAllOk).2.2.2.1 4242 (by decide)

/-- Claim C7: evaluation at the failing input.  With the in-process strategy
selected and every setup step succeeding, the trace of the single main path
of execution performs the blocking in-process launch and only a strictly
later event waits for the termination signal: the signal wait and the
shutdown firing are sequential after the blocking call returns, not
concurrent with it, so teardown cannot run while the call is still
blocked. -/
theorem builtin_wait_sequential_after_launch :
    cfgBuiltin.useBuiltin = true ∧
    seqLaunchThenWait (mainRun cfgBuiltin envAllOk) = true := by
  exact ⟨rfl, by decide⟩

/-- Claim C8 counterexample: the settings fixture with local port 70000 passes the
validation, and main proceeds past it into session creation, although 70000
lies outside 1-65535.  The validation therefore admits port values outside
that range. -/
theorem port_range_counterexample :
    validConfig cfgPortOutOfRange = true ∧
    (mainRun cfgPortOutOfRange envAllOk).head? = some Event.createAWSSession ∧
    ¬(cfgPortOutOfRange.localPort ≤ 65535) := by
  refine ⟨by decide, by decide, by decide⟩

/-- Claim C8 amended: for every Settings record under which the core proceeds past
validation, the local port and the remote port are each non-zero; the
validation checks nothing further about their range. -/
theorem valid_ports_nonzero (cfg : Config) (h : validConfig cfg = true) :
    cfg.localPort ≠ 0 ∧ cfg.remotePort ≠ 0 := by
  simp only [validConfig, Bool.not_eq_true', Bool.or_eq_false_iff, beq_eq_false_iff_ne,
    ne_eq] at h
  exact ⟨h.1.1.2, h.2⟩

/-- Claim C8 witness: the external-strategy fixture passes validation and its ports
are non-zero. -/
theorem valid_ports_nonzero_witness :
    cfgExternal.localPort ≠ 0 ∧ cfgExternal.remotePort ≠ 0 :=
  valid_ports_nonzero cfgExternal (by decide)

section LoggedHeads

/-- Every string the KeepAlive loop logs begins with the letter K, E or S,
never with a brace. -/
theorem keepAlive_logged_head (localPort : Int) (evs : List KAEvent) (s : String)
    (hmem : KAAction.logged s ∈ KeepAlive localPort evs) :
    s.data.head? = some 'K' ∨ s.data.head? = some 'E' ∨ s.data.head? = some 'S' := by
  induction evs with
  | nil => simp [KeepAlive] at hmem
  | cons e rest ih =>
    cases e with
    | tick dr wr =>
      cases dr with
      | error e' =>
        simp only [KeepAlive, keepAliveTick, List.mem_append, List.mem_cons,
          List.not_mem_nil, or_false, reduceCtorEq, false_or] at hmem
        rcases hmem with hmem | hmem
        · rcases hmem with ⟨rfl⟩
          exact Or.inl (head_append _ _ _ rfl)
        · exact ih hmem
      | ok u =>
        cases wr with
        | error e' =>
          simp only [KeepAlive, keepAliveTick, List.mem_append, List.mem_cons,
            List.not_mem_nil, or_false, reduceCtorEq, false_or] at hmem
          rcases hmem with hmem | hmem
          · rcases hmem with ⟨rfl⟩
            exact Or.inr (Or.inl (head_append _ _ _ rfl))
          · exact ih hmem
        | ok v =>
          simp only [KeepAlive, keepAliveTick, List.mem_append, List.mem_cons,
            List.not_mem_nil, or_false, reduceCtorEq, false_or] at hmem
          rcases hmem with hmem | hmem
          · rcases hmem with ⟨rfl⟩
            exact Or.inl rfl
          · exact ih hmem
    | stop =>
      simp only [KeepAlive, List.mem_cons, List.not_mem_nil, or_false,
        reduceCtorEq, false_or, KAAction.logged.injEq] at hmem
      rw [hmem]
      exact Or.inr (Or.inr rfl)

/-- Every string a mainRun trace prints or logs begins with the letter A, F,
P or S, never with a brace. -/
theorem mainRun_printed_head (cfg : Config) (env : Env) (s : String)
    (hmem : s ∈ printedStrings (mainRun cfg env)) :
    s.data.head? = some 'A' ∨ s.data.head? = some 'F' ∨
    s.data.head? = some 'P' ∨ s.data.head? = some 'S' := by
  rcases mainRun_shape cfg env with h | ⟨e, h⟩ | ⟨e, h⟩ | ⟨id, e, h⟩ | ⟨id, e, h⟩ |
      ⟨id, d, h⟩ | ⟨id, d, out, h⟩ | ⟨id, d, e, h⟩ | ⟨id, d, pid, h⟩ <;>
    rw [h] at hmem <;>
    simp only [printedStrings, List.mem_cons, List.not_mem_nil, or_false] at hmem
  · rw [hmem]
    exact Or.inl rfl
  · rw [hmem]
    exact Or.inr (Or.inl (head_append _ _ _ rfl))
  · rw [hmem]
    exact Or.inr (Or.inl (head_append _ _ _ rfl))
  · rw [hmem]
    exact Or.inr (Or.inl (head_append _ _ _ rfl))
  · rcases hmem with rfl | hmem
    · exact Or.inr (Or.inr (Or.inl rfl))
    · rw [hmem]
      exact Or.inr (Or.inl (head_append _ _ _ rfl))
  · rw [hmem]
    exact Or.inr (Or.inr (Or.inl rfl))
  · rcases hmem with rfl | hmem
    · exact Or.inr (Or.inr (Or.inl rfl))
    · rw [hmem]
      exact Or.inr (Or.inr (Or.inr (head_append _ _ _ rfl)))
  · rcases hmem with rfl | hmem
    · exact Or.inr (Or.inr (Or.inl rfl))
    · rw [hmem]
      exact Or.inr (Or.inl (head_append _ _ _ rfl))
  · rcases hmem with rfl | hmem | hmem
    · exact Or.inr (Or.inr (Or.inl rfl))
    · rw [hmem]
      exact Or.inr (Or.inr (Or.inr (head_append _ _ _ rfl)))
    · rw [hmem]
      exact Or.inr (Or.inr (Or.inr rfl))

end LoggedHeads

/-- Claim C9: a serialized session descriptor (a JSON object, hence beginning with
an opening brace) is never written verbatim by the program to its own log or
standard output, neither by the main path nor by the keep-alive loop; in the
trace it occurs only inside the argument vector handed to the tunneling
agent. -/
theorem descriptor_not_logged (cfg : Config) (env : Env) (localPort : Int)
    (evs : List KAEvent) (descriptor : String)
    (hd : descriptor.data.head? = some braceChar) :
    descriptor ∉ printedStrings (mainRun cfg env) ∧
    KAAction.logged descriptor ∉ KeepAlive localPort evs := by
  constructor
  · intro hmem
    rcases mainRun_printed_head cfg env descriptor hmem with h | h | h | h <;>
      rw [hd] at h <;> exact absurd h (by decide)
  · intro hmem
    rcases keepAlive_logged_head localPort evs descriptor hmem with h | h | h <;>
      rw [hd] at h <;> exact absurd h (by decide)

/-- Claim C9 witness: the serialized descriptor of the all-success environment is
not among the strings printed by the external-strategy run, nor logged by a
keep-alive loop that stops at once. -/
theorem descriptor_not_logged_witness :
    "\x7b\"SessionId\":\"s-1\"\x7d" ∉ printedStrings (mainRun cfgExternal envAllOk) ∧
    KAAction.logged ("\x7b\"SessionId\":\"s-1\"\x7d") ∉ KeepAlive 3306 [KAEvent.stop] :=
  descriptor_not_logged cfgExternal envAllOk 3306 [KAEvent.stop]
    "\x7b\"SessionId\":\"s-1\"\x7d" (by decide)

/-- Claim C10: the in-process launcher either aborts the whole process inside the
helper (marshalling failure) or returns the nil error; consequently no run
of main ever reaches the fatal branch guarding the builtin launch at its
call site. -/
theorem builtin_error_branch_unreachable :
    (∀ (m : Except String String) (a : List String → String) (r p i e : String),
      (startSessionManagerPluginBuiltin m a r p i e).2 = FnOutcome.aborted ∨
      (startSessionManagerPluginBuiltin m a r p i e).2 =
        FnOutcome.returned (none : Option String)) ∧
    (∀ (cfg : Config) (env : Env) (msg : String),
      Event.logFatal FatalTag.builtinLaunch msg ∉ mainRun cfg env) := by
  constructor
  · intro m a r p i e
    cases m with
    | error e' => exact Or.inl rfl
    | ok d => exact Or.inr rfl
  · intro cfg env msg
    rcases mainRun_shape cfg env with h | ⟨e, h⟩ | ⟨e, h⟩ | ⟨id, e, h⟩ | ⟨id, e, h⟩ |
        ⟨id, d, h⟩ | ⟨id, d, out, h⟩ | ⟨id, d, e, h⟩ | ⟨id, d, pid, h⟩ <;>
      simp [h]

/-- Claim C10 witness: the fatal builtin-launch log never occurs in the concrete
in-process run. -/
theorem builtin_error_branch_unreachable_witness :
    Event.logFatal FatalTag.builtinLaunch ("boom") ∉ mainRun cfgBuiltin envAllOk :=
  builtin_error_branch_unreachable.2 cfgBuiltin envAllOk ("boom")

end AwsGoForward
